import Mathlib

/-!
Verification of the astronomical conversion module of the
`vietnam-lunar-calendar` repository
(`custom_components/vietnamese_lunar_calendar/lunar_solar.py`).

The integer-valued routines (`julian_day_from_date`, `julian_day_to_date`,
the converters' arithmetic and control flow, and the zodiac naming) are
embedded directly.  Python's `int(a / b)` on integer operands is division
truncated toward zero, embedded here as `pydiv` (`Int.tdiv`); all the
divisors that occur are positive.  The floating-point astronomical series
`new_moon` and `sun_longitude` cannot be evaluated by the kernel; the sun
longitude series is embedded over `ℝ` (idealising IEEE doubles as reals),
and the integer-level day/sector primitives `get_new_moon_day` /
`get_sun_longitude` that the calendar logic consumes are abstracted as an
oracle (`Astro`), so that every statement about the conversion logic is
proved for every oracle, or evaluated at oracles tabulating the source's
own outputs at the queried points.
-/

set_option maxRecDepth 4000
set_option maxHeartbeats 1000000


/-- Python `int(a / b)` for integer `a` and positive integer `b`:
division truncated toward zero. -/
def pydiv (a b : ℤ) : ℤ := a.tdiv b

/-- `julian_day_from_date` from the source: Fliegel–Van Flandern Julian day
number of a Gregorian date, with the Julian-calendar fallback before the
1582 cutover. -/
def julian_day_from_date (dd mm yy : ℤ) : ℤ :=
  let a := pydiv (14 - mm) 12
  let y := yy + 4800 - a
  let m := mm + 12 * a - 3
  let jd := dd + pydiv (153 * m + 2) 5 + 365 * y + pydiv y 4 - pydiv y 100 +
    pydiv y 400 - 32045
  if jd < 2299161 then
    dd + pydiv (153 * m + 2) 5 + 365 * y + pydiv y 4 - 32083
  else jd

/-- `julian_day_to_date` from the source: inverse conversion, branching on
the Gregorian cutover; returns `[day, month, year]`. -/
def julian_day_to_date (jd : ℤ) : List ℤ :=
  let b := if 2299160 < jd then pydiv (4 * (jd + 32044) + 3) 146097 else 0
  let c := if 2299160 < jd then (jd + 32044) - pydiv (b * 146097) 4 else jd + 32082
  let d := pydiv (4 * c + 3) 1461
  let e := c - pydiv (1461 * d) 4
  let m := pydiv (5 * e + 2) 153
  [e - pydiv (153 * m + 2) 5 + 1,
   m + 3 - 12 * pydiv m 10,
   b * 100 + d - 4800 + pydiv m 10]

/-- Number of days of a month of the proleptic Gregorian calendar (not in
the source, which performs no date validation; used to state which inputs
are valid dates). -/
def daysInMonth (m y : ℤ) : ℤ :=
  if m = 2 then
    (if (y % 4 = 0 ∧ y % 100 ≠ 0) ∨ y % 400 = 0 then 29 else 28)
  else if m = 4 ∨ m = 6 ∨ m = 9 ∨ m = 11 then 30 else 31

/-- A valid proleptic Gregorian date. -/
def IsValidDate (d m y : ℤ) : Prop :=
  1 ≤ m ∧ m ≤ 12 ∧ 1 ≤ d ∧ d ≤ daysInMonth m y

instance (d m y : ℤ) : Decidable (IsValidDate d m y) := by
  unfold IsValidDate; infer_instance

/-- The integer-level astronomical primitives consumed by the calendar
logic, abstracted as an oracle: `newMoonDay k` is the source's
`get_new_moon_day(k, tz)` and `sunSector day` is the source's
`get_sun_longitude(day, tz)`, for a fixed time zone.  The conversion
routines below are proved for every oracle, which covers in particular the
source's floating-point implementation at every time zone. -/
structure Astro where
  newMoonDay : ℤ → ℤ
  sunSector : ℤ → ℤ

/-- The constant `2415021.076998695` of the source, as an exact rational. -/
def nmEpoch : ℚ := 2415021076998695 / 1000000000

/-- The mean synodic month `29.530588853` of the source, as an exact
rational. -/
def synMonth : ℚ := 29530588853 / 1000000000

/-- Python `int(q)` on a real value, idealised over `ℚ`: truncation toward
zero. -/
def pyIntQ (q : ℚ) : ℤ := q.num.tdiv (q.den : ℤ)

/-- `get_lunar_month_11` from the source: the day starting the lunar month
containing the winter solstice of year `yy` (step back one lunation when
the estimated new moon already lies past sun-longitude sector 9). -/
def get_lunar_month_11 (A : Astro) (yy : ℤ) : ℤ :=
  let off : ℤ := julian_day_from_date 31 12 yy - 2415021
  let k := pyIntQ ((off : ℚ) / synMonth)
  let nm := A.newMoonDay k
  if 9 ≤ A.sunSector nm then A.newMoonDay (k - 1) else nm

/-- The scan loop of `get_leap_month_offset`.  The loop variable `i` starts
at 1; each iteration increments `i`, reads the sun-longitude sector `arc`
at the `(k+i)`-th new moon and stops as soon as the sector repeats or
`i < 14` fails, returning `i - 1`.  The `fuel` argument makes the
recursion structural; it is called with `fuel = 13`, which the guard
`i + 1 < 14` never exhausts, so the function computes exactly the source's
while loop. -/
def leapScanAux (f : ℤ → ℤ) (k : ℤ) : ℕ → ℤ → ℤ → ℤ
  | 0, _, i => i
  | fuel + 1, last, i =>
    let arc := f (k + (i + 1))
    if arc ≠ last ∧ i + 1 < 14 then leapScanAux f k fuel arc (i + 1)
    else (i + 1) - 1

/-- `get_leap_month_offset` from the source: index of the leap lunation
after the month-11 start `a11`. -/
def get_leap_month_offset (A : Astro) (a11 : ℤ) : ℤ :=
  let k := pyIntQ (((a11 : ℚ) - nmEpoch) / synMonth + 1 / 2)
  leapScanAux (fun j => A.sunSector (A.newMoonDay j)) k 13
    (A.sunSector (A.newMoonDay (k + 1))) 1

/-- `solar_to_lunar` from the source; returns
`[lunarDay, lunarMonth, lunarYear, isLeapMonth]`. -/
def solar_to_lunar (A : Astro) (dd mm yy : ℤ) : List ℤ :=
  let dayNumber := julian_day_from_date dd mm yy
  let k := pyIntQ (((dayNumber : ℚ) - nmEpoch) / synMonth)
  let monthStart0 := A.newMoonDay (k + 1)
  let monthStart := if dayNumber < monthStart0 then A.newMoonDay k else monthStart0
  let a11first := get_lunar_month_11 A yy
  let a11 := if monthStart ≤ a11first then get_lunar_month_11 A (yy - 1) else a11first
  let b11 := if monthStart ≤ a11first then a11first else get_lunar_month_11 A (yy + 1)
  let lunarYear := if monthStart ≤ a11first then yy else yy + 1
  let lunarDay := dayNumber - monthStart + 1
  let diff := pydiv (monthStart - a11) 29
  let leapDiff := get_leap_month_offset A a11
  let lunarMonth0 :=
    if 365 < b11 - a11 ∧ leapDiff ≤ diff then diff + 10 else diff + 11
  let lunarLeap := if 365 < b11 - a11 ∧ diff = leapDiff then 1 else 0
  let lunarMonth := if 12 < lunarMonth0 then lunarMonth0 - 12 else lunarMonth0
  let lunarYear2 := if 11 ≤ lunarMonth ∧ diff < 4 then lunarYear - 1 else lunarYear
  [lunarDay, lunarMonth, lunarYear2, lunarLeap]

/-- The month-11 start `a11` chosen by `lunar_to_solar` (previous year's
for months before 11, this year's otherwise). -/
def lts_a11 (A : Astro) (lunarMonth lunarYear : ℤ) : ℤ :=
  if lunarMonth < 11 then get_lunar_month_11 A (lunarYear - 1)
  else get_lunar_month_11 A lunarYear

/-- The month-11 start `b11` chosen by `lunar_to_solar`. -/
def lts_b11 (A : Astro) (lunarMonth lunarYear : ℤ) : ℤ :=
  if lunarMonth < 11 then get_lunar_month_11 A lunarYear
  else get_lunar_month_11 A (lunarYear + 1)

/-- `lunar_to_solar` from the source; returns `[day, month, year]`, or the
sentinel `[0, 0, 0]` for a leap-month request in a 13-lunation year whose
leap month is a different month. -/
def lunar_to_solar (A : Astro) (lunarDay lunarMonth lunarYear lunarLeap : ℤ) :
    List ℤ :=
  let a11 := lts_a11 A lunarMonth lunarYear
  let b11 := lts_b11 A lunarMonth lunarYear
  let k := pyIntQ (1 / 2 + ((a11 : ℚ) - nmEpoch) / synMonth)
  let off0 := lunarMonth - 11
  let off := if off0 < 0 then off0 + 12 else off0
  if 365 < b11 - a11 then
    let leapOff := get_leap_month_offset A a11
    let leapMonth0 := leapOff - 2
    let leapMonth := if leapMonth0 < 0 then leapMonth0 + 12 else leapMonth0
    if lunarLeap ≠ 0 ∧ lunarMonth ≠ leapMonth then [0, 0, 0]
    else
      let off2 := if lunarLeap ≠ 0 ∨ leapOff ≤ off then off + 1 else off
      julian_day_to_date (A.newMoonDay (k + off2) + lunarDay - 1)
  else
    julian_day_to_date (A.newMoonDay (k + off) + lunarDay - 1)

/-- Tabulation of the source's astronomy primitives
`get_new_moon_day(k, 7)` and `get_sun_longitude(day, 7)` at the points
queried by the 2024 conversions: lunation 1533 starts on Julian day
2460292 (13 Dec 2023, month 11 of lunar 2023, sun sector 8), lunation
1535 on 2460351 (10 Feb 2024, the Lunar New Year), lunation 1546 on
2460676 (30 Dec 2024, sun sector 9, so month 11 of 2024 steps back to
lunation 1545, day 2460646 = 1 Dec 2024). -/
def tetAstro : Astro where
  newMoonDay := fun k =>
    if k = 1533 then 2460292
    else if k = 1535 then 2460351
    else if k = 1536 then 2460380
    else if k = 1545 then 2460646
    else if k = 1546 then 2460676
    else 0
  sunSector := fun day =>
    if day = 2460292 then 8 else if day = 2460676 then 9 else 0

/-- Tabulation of the source's astronomy primitives at the points queried
by the 1902 conversions (time zone 7).  The sun sectors are the values the
source actually computes: they are negative, because `sun_longitude`
truncates instead of flooring when reducing a negative longitude modulo
2π for dates before ≈ J2000. -/
def astro1902 : Astro where
  newMoonDay := fun k =>
    if k = 24 then 2415730 else if k = 25 then 2415760 else
    if k = 26 then 2415789 else if k = 27 then 2415819 else
    if k = 28 then 2415848 else if k = 29 then 2415878 else
    if k = 30 then 2415907 else if k = 31 then 2415936 else
    if k = 32 then 2415966 else if k = 33 then 2415995 else
    if k = 34 then 2416025 else if k = 35 then 2416054 else
    if k = 36 then 2416084 else if k = 37 then 2416114 else
    if k = 38 then 2416143 else if k = 49 then 2416468 else 0
  sunSector := fun day =>
    if day = 2415730 then -3 else if day = 2415760 then -2 else
    if day = 2415789 then -1 else if day = 2415819 then 0 else
    if day = 2415848 then -11 else if day = 2415878 then -10 else
    if day = 2415907 then -9 else if day = 2415936 then -8 else
    if day = 2415966 then -7 else if day = 2415995 then -6 else
    if day = 2416025 then -5 else if day = 2416054 then -4 else
    if day = 2416084 then -3 else if day = 2416114 then -2 else
    if day = 2416143 then -1 else if day = 2416468 then -3 else 0

/-- Tabulation of the source's astronomy primitives at the points queried
by the May 2054 conversion (time zone 7): the new moon of lunation 1909
falls on Julian day 2471396 while 7 May 2054 is day 2471395, one day
before the estimated month start. -/
def astro2054 : Astro where
  newMoonDay := fun k =>
    if k = 1904 then 2471247 else if k = 1909 then 2471396 else
    if k = 1910 then 2471425 else if k = 1916 then 2471601 else
    if k = 1917 then 2471631 else 0
  sunSector := fun day =>
    if day = 2471247 then 8 else if day = 2471631 then 9 else 0

/-- `CAN` from the source: the ten heavenly stems. -/
def CAN : List String :=
  ["Giáp", "Ất", "Bính", "Đinh", "Mậu", "Kỷ", "Canh", "Tân", "Nhâm", "Quý"]

/-- `CHI_MONTH` from the source: the month branch names, indexed directly
by the lunar month (index 0 unused). -/
def CHI_MONTH : List String :=
  ["", "Dần", "Mão", "Thìn", "Tị", "Ngọ", "Mùi", "Thân", "Dậu", "Tuất",
   "Hợi", "Tí", "Sửu"]

/-- `zodiac_month` from the source: stem from `(year*12 + month + 3) % 10`,
branch from the month table. -/
def zodiac_month (month year : ℤ) : String :=
  CAN.getD ((year * 12 + month + 3) % 10).toNat "" ++ " " ++
    CHI_MONTH.getD month.toNat ""

/-- Python `int()` on a real value: truncation toward zero. -/
noncomputable def realTrunc (x : ℝ) : ℤ := if 0 ≤ x then ⌊x⌋ else ⌈x⌉

/-- `T` of `sun_longitude`: Julian centuries from J2000. -/
noncomputable def sunT (jdn : ℝ) : ℝ := (jdn - 2451545) / 36525

/-- `M` of `sun_longitude`: mean anomaly, degrees. -/
noncomputable def sunM (T : ℝ) : ℝ :=
  357.52910 + 35999.05030 * T - 0.0001559 * (T * T) - 0.00000048 * T * (T * T)

/-- `L0` of `sun_longitude`: mean longitude, degrees. -/
noncomputable def sunL0 (T : ℝ) : ℝ :=
  280.46645 + 36000.76983 * T + 0.0003032 * (T * T)

/-- `DL` of `sun_longitude`: equation-of-centre correction, degrees. -/
noncomputable def sunDL (T : ℝ) : ℝ :=
  (1.914600 - 0.004817 * T - 0.000014 * (T * T)) *
      Real.sin (Real.pi / 180 * sunM T) +
    (0.019993 - 0.000101 * T) * Real.sin (Real.pi / 180 * 2 * sunM T) +
    0.000290 * Real.sin (Real.pi / 180 * 3 * sunM T)

/-- `sun_longitude` from the source, with floats idealised as reals:
converts the ecliptic longitude to radians and reduces it modulo 2π using
Python `int` (truncation), which floors only for nonnegative values. -/
noncomputable def sun_longitude (jdn : ℝ) : ℝ :=
  let L := (sunL0 (sunT jdn) + sunDL (sunT jdn)) * (Real.pi / 180)
  L - Real.pi * 2 * (realTrunc (L / (Real.pi * 2)) : ℝ)

/-- `get_sun_longitude` from the source: sector index of the sun longitude
at local midnight. -/
noncomputable def get_sun_longitude (dayNumber : ℤ) (timeZone : ℤ) : ℤ :=
  realTrunc (sun_longitude ((dayNumber : ℝ) - 0.5 - (timeZone : ℝ) / 24) /
    Real.pi * 6)

/-- On nonnegative numerators, truncating division agrees with floor
(Euclidean) division. -/
theorem pydiv_nonneg_eq (a b : ℤ) (ha : 0 ≤ a) (hb : 0 ≤ b) :
    pydiv a b = a / b := Int.tdiv_eq_ediv ha hb

/-- Characterisation of truncating division by a positive divisor: the
quotient brackets the dividend from the side of zero. -/
theorem pydiv_spec (a b : ℤ) (hb : 0 < b) :
    (0 ≤ a ∧ b * pydiv a b ≤ a ∧ a < b * pydiv a b + b) ∨
    (a ≤ 0 ∧ a ≤ b * pydiv a b ∧ b * pydiv a b < a + b) := by
  unfold pydiv
  rcases le_or_lt 0 a with ha | ha
  · rw [Int.tdiv_eq_ediv ha (le_of_lt hb)]
    have h1 := Int.ediv_add_emod a b
    have h2 := Int.emod_nonneg a (by omega : b ≠ 0)
    have h3 := Int.emod_lt_of_pos a hb
    left
    exact ⟨ha, by linarith, by linarith⟩
  · rw [show a = -(-a) from by omega, Int.neg_tdiv,
      Int.tdiv_eq_ediv (by omega) (le_of_lt hb)]
    have h1 := Int.ediv_add_emod (-a) b
    have h2 := Int.emod_nonneg (-a) (by omega : b ≠ 0)
    have h3 := Int.emod_lt_of_pos (-a) hb
    right
    exact ⟨by omega, by linarith, by linarith⟩

/-- Closed Euclidean-division form of `julian_day_from_date` for months in
range and years after the Gregorian cutover (the Julian branch is dead
there). -/
theorem fromDate_eq (dd mm yy : ℤ) (hm1 : 1 ≤ mm) (hm2 : mm ≤ 12)
    (hy : 1590 ≤ yy) (hd : 1 ≤ dd) :
    julian_day_from_date dd mm yy =
      dd + (153 * (mm + 12 * ((14 - mm) / 12) - 3) + 2) / 5 +
        365 * (yy + 4800 - (14 - mm) / 12) + (yy + 4800 - (14 - mm) / 12) / 4 -
        (yy + 4800 - (14 - mm) / 12) / 100 + (yy + 4800 - (14 - mm) / 12) / 400 -
        32045 := by
  simp only [julian_day_from_date]
  rw [pydiv_nonneg_eq (14 - mm) 12 (by omega) (by norm_num)]
  rw [pydiv_nonneg_eq (153 * (mm + 12 * ((14 - mm) / 12) - 3) + 2) 5 (by omega) (by norm_num)]
  rw [pydiv_nonneg_eq (yy + 4800 - (14 - mm) / 12) 4 (by omega) (by norm_num)]
  rw [pydiv_nonneg_eq (yy + 4800 - (14 - mm) / 12) 100 (by omega) (by norm_num)]
  rw [pydiv_nonneg_eq (yy + 4800 - (14 - mm) / 12) 400 (by omega) (by norm_num)]
  rw [if_neg (by omega)]

/-- Closed Euclidean-division form of `julian_day_to_date` after the
cutover, with the intermediate quantities of the source named. -/
theorem toDate_eq (jd b c d e m : ℤ) (h : 2299160 < jd)
    (hb : b = (4 * (jd + 32044) + 3) / 146097)
    (hc : c = jd + 32044 - b * 146097 / 4)
    (hd : d = (4 * c + 3) / 1461)
    (he : e = c - 1461 * d / 4)
    (hm : m = (5 * e + 2) / 153) :
    julian_day_to_date jd =
      [e - (153 * m + 2) / 5 + 1, m + 3 - 12 * (m / 10),
       b * 100 + d - 4800 + m / 10] := by
  simp only [julian_day_to_date, if_pos h]
  rw [pydiv_nonneg_eq (4 * (jd + 32044) + 3) 146097 (by omega) (by norm_num)]
  rw [pydiv_nonneg_eq ((4 * (jd + 32044) + 3) / 146097 * 146097) 4 (by omega) (by norm_num)]
  rw [pydiv_nonneg_eq (4 * (jd + 32044 - (4 * (jd + 32044) + 3) / 146097 * 146097 / 4) + 3) 1461
    (by omega) (by norm_num)]
  rw [pydiv_nonneg_eq (1461 * ((4 * (jd + 32044 - (4 * (jd + 32044) + 3) / 146097 * 146097 / 4) + 3) / 1461)) 4
    (by omega) (by norm_num)]
  rw [pydiv_nonneg_eq (5 * (jd + 32044 - (4 * (jd + 32044) + 3) / 146097 * 146097 / 4 -
      1461 * ((4 * (jd + 32044 - (4 * (jd + 32044) + 3) / 146097 * 146097 / 4) + 3) / 1461) / 4) + 2) 153
    (by omega) (by norm_num)]
  rw [pydiv_nonneg_eq ((5 * (jd + 32044 - (4 * (jd + 32044) + 3) / 146097 * 146097 / 4 -
      1461 * ((4 * (jd + 32044 - (4 * (jd + 32044) + 3) / 146097 * 146097 / 4) + 3) / 1461) / 4) + 2) / 153) 10
    (by omega) (by norm_num)]
  rw [pydiv_nonneg_eq (153 * ((5 * (jd + 32044 - (4 * (jd + 32044) + 3) / 146097 * 146097 / 4 -
      1461 * ((4 * (jd + 32044 - (4 * (jd + 32044) + 3) / 146097 * 146097 / 4) + 3) / 1461) / 4) + 2) / 153) + 2) 5
    (by omega) (by norm_num)]
  subst hb hc hd he hm
  norm_num

/-- C4: round trip of the Julian-day primitives on every valid date of the
supported years 1800-2100: `julian_day_to_date` inverts
`julian_day_from_date`. -/
theorem jd_roundtrip (d m y : ℤ) (hy1 : 1800 ≤ y) (hy2 : y ≤ 2100)
    (hv : IsValidDate d m y) :
    julian_day_to_date (julian_day_from_date d m y) = [d, m, y] := by
  obtain ⟨hm1, hm2, hd1, hd2⟩ := hv
  rw [fromDate_eq d m y hm1 hm2 (by omega) hd1]
  set J := d + (153 * (m + 12 * ((14 - m) / 12) - 3) + 2) / 5 +
      365 * (y + 4800 - (14 - m) / 12) + (y + 4800 - (14 - m) / 12) / 4 -
      (y + 4800 - (14 - m) / 12) / 100 + (y + 4800 - (14 - m) / 12) / 400 -
      32045 with hJ
  set B := (4 * (J + 32044) + 3) / 146097 with hB
  set C := J + 32044 - B * 146097 / 4 with hC
  set D := (4 * C + 3) / 1461 with hD
  set E := C - 1461 * D / 4 with hE
  set M := (5 * E + 2) / 153 with hM
  rw [toDate_eq J B C D E M (by omega) hB hC hD hE hM]
  clear_value J B C D E M
  simp only [daysInMonth] at hd2
  simp only [List.cons.injEq, and_true]
  interval_cases m
  · norm_num at hJ hd2
    rw [show y + 4800 - 1 = y + 4799 from by ring] at hJ
    have hBv : B = (y + 4799) / 100 := by omega
    have hCv : C = J + 32044 - (y + 4799) / 100 * 146097 / 4 := by rw [hC, hBv]
    have hk1 : (y + 4799) / 100 / 4 = (y + 4799) / 400 := by omega
    have hk2 : (y + 4799) / 100 * 146097 / 4 =
        36524 * ((y + 4799) / 100) + (y + 4799) / 100 / 4 := by omega
    rw [hk1] at hk2
    have hDv : D = y + 4799 - 100 * ((y + 4799) / 100) := by omega
    have hEv : E = d + 305 := by omega
    have hMv : M = 10 := by omega
    omega
  · norm_num at hJ hd2
    rw [show y + 4800 - 1 = y + 4799 from by ring] at hJ
    rcases (by split_ifs at hd2 <;> omega : d ≤ 28 ∨ d = 29) with hd28 | hd29
    · clear hd2
      rcases (by omega : y / 100 = 18 ∨ y / 100 = 19 ∨ y / 100 = 20 ∨
          y / 100 = 21) with hY|hY|hY|hY <;>
        (have hBv : B = (y + 4799) / 100 := by
           clear hM hE hD hC
           clear M E D C
           omega
         have hCv : C = J + 32044 - (y + 4799) / 100 * 146097 / 4 := by rw [hC, hBv]
         have hk1 : (y + 4799) / 100 / 4 = (y + 4799) / 400 := by omega
         have hk2 : (y + 4799) / 100 * 146097 / 4 =
             36524 * ((y + 4799) / 100) + (y + 4799) / 100 / 4 := by omega
         rw [hk1] at hk2
         have hDv : D = y + 4799 - 100 * ((y + 4799) / 100) := by omega
         have hEv : E = d + 336 := by omega
         have hMv : M = 11 := by omega
         omega)
    · have hLp : (y % 4 = 0 ∧ y % 100 ≠ 0) ∨ y % 400 = 0 := by
        split_ifs at hd2 with h
        · rcases h with ⟨h1, h2⟩ | h3
          · exact Or.inl ⟨by omega, by omega⟩
          · exact Or.inr (by omega)
        · omega
      clear hd2
      rcases hLp with ⟨h4, h100⟩ | h400
      · rcases (by omega : y / 100 = 18 ∨ y / 100 = 19 ∨ y / 100 = 20 ∨
            y / 100 = 21) with hY|hY|hY|hY <;>
          (have hBv : B = (y + 4799) / 100 := by
             clear hM hE hD hC
             clear M E D C
             omega
           have hCv : C = J + 32044 - (y + 4799) / 100 * 146097 / 4 := by rw [hC, hBv]
           have hk1 : (y + 4799) / 100 / 4 = (y + 4799) / 400 := by omega
           have hk2 : (y + 4799) / 100 * 146097 / 4 =
               36524 * ((y + 4799) / 100) + (y + 4799) / 100 / 4 := by omega
           rw [hk1] at hk2
           have hDv : D = y + 4799 - 100 * ((y + 4799) / 100) := by omega
           have hEv : E = d + 336 := by omega
           have hMv : M = 11 := by omega
           omega)
      · have hBv : B = (y + 4799) / 100 := by
          clear hM hE hD hC
          clear M E D C
          omega
        have hCv : C = J + 32044 - (y + 4799) / 100 * 146097 / 4 := by rw [hC, hBv]
        have hk1 : (y + 4799) / 100 / 4 = (y + 4799) / 400 := by omega
        have hk2 : (y + 4799) / 100 * 146097 / 4 =
            36524 * ((y + 4799) / 100) + (y + 4799) / 100 / 4 := by omega
        rw [hk1] at hk2
        have hDv : D = y + 4799 - 100 * ((y + 4799) / 100) := by omega
        have hEv : E = d + 336 := by omega
        have hMv : M = 11 := by omega
        omega
  · norm_num at hJ hd2
    have hBv : B = (y + 4800) / 100 := by omega
    have hCv : C = J + 32044 - (y + 4800) / 100 * 146097 / 4 := by rw [hC, hBv]
    have hk1 : (y + 4800) / 100 / 4 = (y + 4800) / 400 := by omega
    have hk2 : (y + 4800) / 100 * 146097 / 4 =
        36524 * ((y + 4800) / 100) + (y + 4800) / 100 / 4 := by omega
    rw [hk1] at hk2
    have hDv : D = y + 4800 - 100 * ((y + 4800) / 100) := by omega
    have hEv : E = d - 1 := by omega
    have hMv : M = 0 := by omega
    omega
  · norm_num at hJ hd2
    have hBv : B = (y + 4800) / 100 := by omega
    have hCv : C = J + 32044 - (y + 4800) / 100 * 146097 / 4 := by rw [hC, hBv]
    have hk1 : (y + 4800) / 100 / 4 = (y + 4800) / 400 := by omega
    have hk2 : (y + 4800) / 100 * 146097 / 4 =
        36524 * ((y + 4800) / 100) + (y + 4800) / 100 / 4 := by omega
    rw [hk1] at hk2
    have hDv : D = y + 4800 - 100 * ((y + 4800) / 100) := by omega
    have hEv : E = d + 30 := by omega
    have hMv : M = 1 := by omega
    omega
  · norm_num at hJ hd2
    have hBv : B = (y + 4800) / 100 := by omega
    have hCv : C = J + 32044 - (y + 4800) / 100 * 146097 / 4 := by rw [hC, hBv]
    have hk1 : (y + 4800) / 100 / 4 = (y + 4800) / 400 := by omega
    have hk2 : (y + 4800) / 100 * 146097 / 4 =
        36524 * ((y + 4800) / 100) + (y + 4800) / 100 / 4 := by omega
    rw [hk1] at hk2
    have hDv : D = y + 4800 - 100 * ((y + 4800) / 100) := by omega
    have hEv : E = d + 60 := by omega
    have hMv : M = 2 := by omega
    omega
  · norm_num at hJ hd2
    have hBv : B = (y + 4800) / 100 := by omega
    have hCv : C = J + 32044 - (y + 4800) / 100 * 146097 / 4 := by rw [hC, hBv]
    have hk1 : (y + 4800) / 100 / 4 = (y + 4800) / 400 := by omega
    have hk2 : (y + 4800) / 100 * 146097 / 4 =
        36524 * ((y + 4800) / 100) + (y + 4800) / 100 / 4 := by omega
    rw [hk1] at hk2
    have hDv : D = y + 4800 - 100 * ((y + 4800) / 100) := by omega
    have hEv : E = d + 91 := by omega
    have hMv : M = 3 := by omega
    omega
  · norm_num at hJ hd2
    have hBv : B = (y + 4800) / 100 := by omega
    have hCv : C = J + 32044 - (y + 4800) / 100 * 146097 / 4 := by rw [hC, hBv]
    have hk1 : (y + 4800) / 100 / 4 = (y + 4800) / 400 := by omega
    have hk2 : (y + 4800) / 100 * 146097 / 4 =
        36524 * ((y + 4800) / 100) + (y + 4800) / 100 / 4 := by omega
    rw [hk1] at hk2
    have hDv : D = y + 4800 - 100 * ((y + 4800) / 100) := by omega
    have hEv : E = d + 121 := by omega
    have hMv : M = 4 := by omega
    omega
  · norm_num at hJ hd2
    have hBv : B = (y + 4800) / 100 := by omega
    have hCv : C = J + 32044 - (y + 4800) / 100 * 146097 / 4 := by rw [hC, hBv]
    have hk1 : (y + 4800) / 100 / 4 = (y + 4800) / 400 := by omega
    have hk2 : (y + 4800) / 100 * 146097 / 4 =
        36524 * ((y + 4800) / 100) + (y + 4800) / 100 / 4 := by omega
    rw [hk1] at hk2
    have hDv : D = y + 4800 - 100 * ((y + 4800) / 100) := by omega
    have hEv : E = d + 152 := by omega
    have hMv : M = 5 := by omega
    omega
  · norm_num at hJ hd2
    have hBv : B = (y + 4800) / 100 := by omega
    have hCv : C = J + 32044 - (y + 4800) / 100 * 146097 / 4 := by rw [hC, hBv]
    have hk1 : (y + 4800) / 100 / 4 = (y + 4800) / 400 := by omega
    have hk2 : (y + 4800) / 100 * 146097 / 4 =
        36524 * ((y + 4800) / 100) + (y + 4800) / 100 / 4 := by omega
    rw [hk1] at hk2
    have hDv : D = y + 4800 - 100 * ((y + 4800) / 100) := by omega
    have hEv : E = d + 183 := by omega
    have hMv : M = 6 := by omega
    omega
  · norm_num at hJ hd2
    have hBv : B = (y + 4800) / 100 := by omega
    have hCv : C = J + 32044 - (y + 4800) / 100 * 146097 / 4 := by rw [hC, hBv]
    have hk1 : (y + 4800) / 100 / 4 = (y + 4800) / 400 := by omega
    have hk2 : (y + 4800) / 100 * 146097 / 4 =
        36524 * ((y + 4800) / 100) + (y + 4800) / 100 / 4 := by omega
    rw [hk1] at hk2
    have hDv : D = y + 4800 - 100 * ((y + 4800) / 100) := by omega
    have hEv : E = d + 213 := by omega
    have hMv : M = 7 := by omega
    omega
  · norm_num at hJ hd2
    have hBv : B = (y + 4800) / 100 := by omega
    have hCv : C = J + 32044 - (y + 4800) / 100 * 146097 / 4 := by rw [hC, hBv]
    have hk1 : (y + 4800) / 100 / 4 = (y + 4800) / 400 := by omega
    have hk2 : (y + 4800) / 100 * 146097 / 4 =
        36524 * ((y + 4800) / 100) + (y + 4800) / 100 / 4 := by omega
    rw [hk1] at hk2
    have hDv : D = y + 4800 - 100 * ((y + 4800) / 100) := by omega
    have hEv : E = d + 244 := by omega
    have hMv : M = 8 := by omega
    omega
  · norm_num at hJ hd2
    have hBv : B = (y + 4800) / 100 := by omega
    have hCv : C = J + 32044 - (y + 4800) / 100 * 146097 / 4 := by rw [hC, hBv]
    have hk1 : (y + 4800) / 100 / 4 = (y + 4800) / 400 := by omega
    have hk2 : (y + 4800) / 100 * 146097 / 4 =
        36524 * ((y + 4800) / 100) + (y + 4800) / 100 / 4 := by omega
    rw [hk1] at hk2
    have hDv : D = y + 4800 - 100 * ((y + 4800) / 100) := by omega
    have hEv : E = d + 274 := by omega
    have hMv : M = 9 := by omega
    omega

/-- Within one year, a date of an earlier month has a strictly smaller
Julian day number. -/
theorem fromDate_month_lt (d1 m1 d2 m2 y : ℤ) (hy1 : 1800 ≤ y) (hy2 : y ≤ 2100)
    (hv1 : IsValidDate d1 m1 y) (hv2 : IsValidDate d2 m2 y) (hm : m1 < m2) :
    julian_day_from_date d1 m1 y < julian_day_from_date d2 m2 y := by
  obtain ⟨hm1a, hm1b, hd1a, hd1b⟩ := hv1
  obtain ⟨hm2a, hm2b, hd2a, hd2b⟩ := hv2
  rw [fromDate_eq d1 m1 y hm1a hm1b (by omega) hd1a,
    fromDate_eq d2 m2 y hm2a hm2b (by omega) hd2a]
  simp only [daysInMonth] at hd1b hd2b
  interval_cases m1 <;> interval_cases m2 <;> norm_num at hd1b ⊢ <;>
    first
      | omega
      | (split_ifs at hd1b <;> omega)

/-- Any valid date of a year has a Julian day number strictly below that of
January first of the next year. -/
theorem fromDate_lt_next_year (d m y : ℤ) (hy1 : 1800 ≤ y) (hy2 : y ≤ 2100)
    (hv : IsValidDate d m y) :
    julian_day_from_date d m y < julian_day_from_date 1 1 (y + 1) := by
  obtain ⟨hm1, hm2, hd1, hd2⟩ := hv
  rw [fromDate_eq d m y hm1 hm2 (by omega) hd1,
    fromDate_eq 1 1 (y + 1) (by norm_num) (by norm_num) (by omega) (by norm_num)]
  simp only [daysInMonth] at hd2
  norm_num
  interval_cases m <;> norm_num at hd2 ⊢ <;>
    first
      | omega
      | (split_ifs at hd2 <;> omega)

/-- Any valid date of a year has a Julian day number at least that of
January first of the same year. -/
theorem fromDate_ge_jan1 (d m y : ℤ) (hy1 : 1800 ≤ y) (hy2 : y ≤ 2100)
    (hv : IsValidDate d m y) :
    julian_day_from_date 1 1 y ≤ julian_day_from_date d m y := by
  obtain ⟨hm1, hm2, hd1, hd2⟩ := hv
  rw [fromDate_eq d m y hm1 hm2 (by omega) hd1,
    fromDate_eq 1 1 y (by norm_num) (by norm_num) (by omega) (by norm_num)]
  norm_num
  interval_cases m <;> norm_num <;> omega

/-- January first's Julian day number is monotone in the year. -/
theorem fromDate_jan1_le (y z : ℤ) (hy1 : 1800 ≤ y) (hz2 : z ≤ 2101)
    (h : y ≤ z) :
    julian_day_from_date 1 1 y ≤ julian_day_from_date 1 1 z := by
  rw [fromDate_eq 1 1 y (by norm_num) (by norm_num) (by omega) (by norm_num),
    fromDate_eq 1 1 z (by norm_num) (by norm_num) (by omega) (by norm_num)]
  norm_num
  omega

/-- C5: `julian_day_from_date` is strictly monotone in calendar order on
the supported range 1800-2100. -/
theorem jd_strictMono (d1 m1 y1 d2 m2 y2 : ℤ)
    (hy1a : 1800 ≤ y1) (hy1b : y1 ≤ 2100) (hv1 : IsValidDate d1 m1 y1)
    (hy2a : 1800 ≤ y2) (hy2b : y2 ≤ 2100) (hv2 : IsValidDate d2 m2 y2)
    (hlt : y1 < y2 ∨ (y1 = y2 ∧ (m1 < m2 ∨ (m1 = m2 ∧ d1 < d2)))) :
    julian_day_from_date d1 m1 y1 < julian_day_from_date d2 m2 y2 := by
  rcases hlt with hy | ⟨rfl, hm | ⟨rfl, hd⟩⟩
  · calc julian_day_from_date d1 m1 y1
        < julian_day_from_date 1 1 (y1 + 1) :=
          fromDate_lt_next_year d1 m1 y1 hy1a hy1b hv1
      _ ≤ julian_day_from_date 1 1 y2 :=
          fromDate_jan1_le (y1 + 1) y2 (by omega) (by omega) (by omega)
      _ ≤ julian_day_from_date d2 m2 y2 :=
          fromDate_ge_jan1 d2 m2 y2 hy2a hy2b hv2
  · exact fromDate_month_lt d1 m1 d2 m2 y1 hy1a hy1b hv1 hv2 hm
  · obtain ⟨hm1a, hm1b, hd1a, hd1b⟩ := hv1
    obtain ⟨_, _, hd2a, _⟩ := hv2
    rw [fromDate_eq d1 m1 y1 hm1a hm1b (by omega) hd1a,
      fromDate_eq d2 m1 y1 hm1a hm1b (by omega) hd2a]
    omega

/-- Bounds of the scan loop: called with `1 ≤ i` and `i + fuel = 14`, it
returns an offset in `[i, 13]`; in particular the loop body runs at most
`13` times. -/
theorem leapScanAux_bounds (fuel : ℕ) (f : ℤ → ℤ) (k last i : ℤ)
    (h1 : 1 ≤ i) (h2 : i + fuel = 14) (h3 : 1 ≤ fuel) :
    i ≤ leapScanAux f k fuel last i ∧ leapScanAux f k fuel last i ≤ 13 := by
  induction fuel generalizing last i with
  | zero => omega
  | succ n ih =>
    simp only [leapScanAux]
    split
    · rename_i hcond
      have hn : i + 1 + n = 14 := by omega
      have := ih (f (k + (i + 1))) (i + 1) (by omega) hn (by omega)
      exact ⟨by omega, this.2⟩
    · omega

/-- The leap-month offset lies in `[1, 13]` for every oracle and every
`a11`. -/
theorem leap_offset_bounds (A : Astro) (a11 : ℤ) :
    1 ≤ get_leap_month_offset A a11 ∧ get_leap_month_offset A a11 ≤ 13 := by
  unfold get_leap_month_offset
  exact leapScanAux_bounds 13 _ _ _ 1 (by norm_num) (by norm_num) (by norm_num)

/-- `julian_day_to_date` never returns `[0, 0, 0]`: the sentinel of
`lunar_to_solar` cannot arise from an ordinary conversion. -/
theorem toDate_ne_zero (jd : ℤ) : julian_day_to_date jd ≠ [0, 0, 0] := by
  rcases lt_or_le 2299160 jd with h | h
  · set B := (4 * (jd + 32044) + 3) / 146097 with hB
    set C := jd + 32044 - B * 146097 / 4 with hC
    set D := (4 * C + 3) / 1461 with hD
    set E := C - 1461 * D / 4 with hE
    set M := (5 * E + 2) / 153 with hM
    rw [toDate_eq jd B C D E M h hB hC hD hE hM]
    clear_value B C D E M
    have hken : B * 146097 / 4 = 36524 * B + B / 4 := by omega
    have hC0 : 0 ≤ C := by omega
    have hL : 1461 * D / 4 = 365 * D + D / 4 := by omega
    have hE0 : 0 ≤ E ∧ E ≤ 365 := by omega
    have hM0 : 0 ≤ M ∧ M ≤ 11 := by omega
    intro heq
    simp only [List.cons.injEq, and_true] at heq
    omega
  · simp only [julian_day_to_date, if_neg (by omega : ¬2299160 < jd)]
    generalize hq1 : pydiv (4 * (jd + 32082) + 3) 1461 = q1
    have hs1 := pydiv_spec (4 * (jd + 32082) + 3) 1461 (by norm_num)
    rw [hq1] at hs1
    generalize hq2 : pydiv (1461 * q1) 4 = q2
    have hs2 := pydiv_spec (1461 * q1) 4 (by norm_num)
    rw [hq2] at hs2
    generalize hq3 : pydiv (5 * (jd + 32082 - q2) + 2) 153 = q3
    have hs3 := pydiv_spec (5 * (jd + 32082 - q2) + 2) 153 (by norm_num)
    rw [hq3] at hs3
    generalize hq4 : pydiv (153 * q3 + 2) 5 = q4
    have hs4 := pydiv_spec (153 * q3 + 2) 5 (by norm_num)
    rw [hq4] at hs4
    generalize hq5 : pydiv q3 10 = q5
    have hs5 := pydiv_spec q3 10 (by norm_num)
    rw [hq5] at hs5
    intro heq
    simp only [List.cons.injEq, and_true] at heq
    rcases hs1 with ⟨x1, hb1, hc1⟩ | ⟨x1, hb1, hc1⟩ <;>
      rcases hs2 with ⟨x2, hb2, hc2⟩ | ⟨x2, hb2, hc2⟩ <;>
      rcases hs3 with ⟨x3, hb3, hc3⟩ | ⟨x3, hb3, hc3⟩ <;>
      rcases hs4 with ⟨x4, hb4, hc4⟩ | ⟨x4, hb4, hc4⟩ <;>
      rcases hs5 with ⟨x5, hb5, hc5⟩ | ⟨x5, hb5, hc5⟩ <;>
      omega

/-- The normalised leap-month position of `lunar_to_solar` equals
`(leapOff - 2) % 12` when `leapOff` lies in `[1, 13]`. -/
theorem leapMonth_eq_emod (A : Astro) (a11 : ℤ) :
    (if get_leap_month_offset A a11 - 2 < 0 then get_leap_month_offset A a11 - 2 + 12
      else get_leap_month_offset A a11 - 2) =
      (get_leap_month_offset A a11 - 2) % 12 := by
  have hb := leap_offset_bounds A a11
  split_ifs with h <;> omega

/-- In a year whose month-11 starts span at most 365 days, `lunar_to_solar`
never consults the leap flag: the result is that of the flag-cleared call. -/
theorem lunar_to_solar_ignores_leap (A : Astro) (d m y leap : ℤ)
    (hspan : lts_b11 A m y - lts_a11 A m y ≤ 365) :
    lunar_to_solar A d m y leap = lunar_to_solar A d m y 0 ∧
      lunar_to_solar A d m y leap ≠ [0, 0, 0] := by
  have hns : ¬(365 < lts_b11 A m y - lts_a11 A m y) := by omega
  constructor
  · simp only [lunar_to_solar, if_neg hns]
  · simp only [lunar_to_solar, if_neg hns]
    exact toDate_ne_zero _

/-- `lunar_to_solar` returns the sentinel exactly when the year spans more
than 365 days between month-11 starts, the leap flag is set, and the
requested month is not the leap month. -/
theorem lunar_to_solar_sentinel_iff (A : Astro) (d m y leap : ℤ) :
    (lunar_to_solar A d m y leap = [0, 0, 0] ↔
      (365 < lts_b11 A m y - lts_a11 A m y ∧ leap ≠ 0 ∧
        m ≠ (get_leap_month_offset A (lts_a11 A m y) - 2) % 12)) := by
  simp only [lunar_to_solar]
  rw [leapMonth_eq_emod A (lts_a11 A m y)]
  by_cases h1 : 365 < lts_b11 A m y - lts_a11 A m y
  · rw [if_pos h1]
    by_cases h2 : leap ≠ 0 ∧ m ≠ (get_leap_month_offset A (lts_a11 A m y) - 2) % 12
    · rw [if_pos h2]
      exact iff_of_true rfl ⟨h1, h2.1, h2.2⟩
    · rw [if_neg h2]
      exact iff_of_false (toDate_ne_zero _) (fun h => h2 ⟨h.2.1, h.2.2⟩)
  · rw [if_neg h1]
    exact iff_of_false (toDate_ne_zero _) (fun h => h1 h.1)

/-- On nonnegative rationals, `pyIntQ` is the floor. -/
theorem pyIntQ_nonneg_floor (q : ℚ) (h : 0 ≤ q) : pyIntQ q = ⌊q⌋ := by
  unfold pyIntQ
  rw [Int.tdiv_eq_ediv (Rat.num_nonneg.mpr h) (Int.natCast_nonneg _), Rat.floor_def]

/-- `pyIntQ` commutes with negation. -/
theorem pyIntQ_neg (q : ℚ) : pyIntQ (-q) = -pyIntQ q := by
  unfold pyIntQ
  rw [Rat.neg_num, Rat.neg_den, Int.neg_tdiv]

/-- `pyIntQ` of an integer quotient is the truncating integer division. -/
theorem pyIntQ_intCast_div (a : ℤ) (b : ℕ) (hb : 0 < b) :
    pyIntQ ((a : ℚ) / (b : ℚ)) = pydiv a b := by
  rcases le_or_lt 0 a with ha | ha
  · rw [pyIntQ_nonneg_floor _
        (div_nonneg (by exact_mod_cast ha) (by positivity)),
      Rat.floor_intCast_div_natCast, pydiv_nonneg_eq a b ha (Int.natCast_nonneg b)]
  · have h1 : (a : ℚ) / (b : ℚ) = -(((-a : ℤ) : ℚ) / ((b : ℕ) : ℚ)) := by
      push_cast; ring
    have h2 : ((-a : ℤ)).tdiv (b : ℤ) = (-a) / (b : ℤ) :=
      Int.tdiv_eq_ediv (by omega) (Int.natCast_nonneg b)
    rw [h1, pyIntQ_neg, pyIntQ_nonneg_floor _
        (div_nonneg (by exact_mod_cast (by omega : (0 : ℤ) ≤ -a)) (by positivity)),
      Rat.floor_intCast_div_natCast]
    unfold pydiv
    rw [← h2, Int.neg_tdiv, neg_neg]

/-- The lunation index computed by `get_lunar_month_11`, as an integer
division. -/
theorem pyIntQ_glm (d : ℤ) :
    pyIntQ ((d : ℚ) / synMonth) = pydiv (1000000000 * d) 29530588853 := by
  have h : (d : ℚ) / synMonth =
      ((1000000000 * d : ℤ) : ℚ) / ((29530588853 : ℕ) : ℚ) := by
    rw [synMonth]; push_cast; field_simp; ring
  rw [h, pyIntQ_intCast_div _ _ (by norm_num)]
  norm_num

/-- The lunation index computed by `solar_to_lunar`, as an integer
division. -/
theorem pyIntQ_s2l (d : ℤ) :
    pyIntQ (((d : ℚ) - nmEpoch) / synMonth) =
      pydiv (1000000000 * d - 2415021076998695) 29530588853 := by
  have h : ((d : ℚ) - nmEpoch) / synMonth =
      ((1000000000 * d - 2415021076998695 : ℤ) : ℚ) / ((29530588853 : ℕ) : ℚ) := by
    rw [nmEpoch, synMonth]; push_cast; field_simp; ring
  rw [h, pyIntQ_intCast_div _ _ (by norm_num)]
  norm_num

/-- The lunation index computed by `get_leap_month_offset`, as an integer
division. -/
theorem pyIntQ_glmo (d : ℤ) :
    pyIntQ (((d : ℚ) - nmEpoch) / synMonth + 1 / 2) =
      pydiv (2000000000 * d - 4830042153997390 + 29530588853) 59061177706 := by
  have h : ((d : ℚ) - nmEpoch) / synMonth + 1 / 2 =
      ((2000000000 * d - 4830042153997390 + 29530588853 : ℤ) : ℚ) /
        ((59061177706 : ℕ) : ℚ) := by
    rw [nmEpoch, synMonth]; push_cast; field_simp; ring
  rw [h, pyIntQ_intCast_div _ _ (by norm_num)]
  norm_num

/-- The lunation index computed by `lunar_to_solar`, as an integer
division. -/
theorem pyIntQ_l2s (d : ℤ) :
    pyIntQ (1 / 2 + ((d : ℚ) - nmEpoch) / synMonth) =
      pydiv (2000000000 * d - 4830042153997390 + 29530588853) 59061177706 := by
  rw [← pyIntQ_glmo d, add_comm]

/-- C1: counterexample to the solar-lunar-solar round-trip on the
supported range with time zone 7: 30 Nov 1902 maps to lunar (1, 11, 1902)
with no leap flag, and `lunar_to_solar` maps that back to 30 Dec 1902, not
30 Nov 1902.  The oracle `astro1902` tabulates the source's own
`get_new_moon_day` / `get_sun_longitude` outputs at every queried point. -/
theorem c1_roundtrip_failure :
    solar_to_lunar astro1902 30 11 1902 = [1, 11, 1902, 0] ∧
    lunar_to_solar astro1902 1 11 1902 0 = [30, 12, 1902] := by
  constructor
  · simp only [solar_to_lunar, get_lunar_month_11, pyIntQ_s2l, pyIntQ_glm,
      get_leap_month_offset, pyIntQ_glmo]
    decide
  · simp only [lunar_to_solar, lts_a11, lts_b11, get_lunar_month_11,
      get_leap_month_offset, pyIntQ_glm, pyIntQ_glmo, pyIntQ_l2s]
    decide

/-- C2: counterexample to the sentinel claim as stated: in the common
lunar year 2024 (month-11 span at most 365 days) a set leap flag with a
month that is no leap month does not return `[0, 0, 0]`; the flag is
silently ignored and 10 Feb 2024 is returned. -/
theorem c2_sentinel_not_returned :
    lts_b11 tetAstro 1 2024 - lts_a11 tetAstro 1 2024 ≤ 365 ∧
    lunar_to_solar tetAstro 1 1 2024 1 = [10, 2, 2024] ∧
    lunar_to_solar tetAstro 1 1 2024 1 ≠ [0, 0, 0] := by
  refine ⟨?_, ?_, ?_⟩ <;>
    simp only [lunar_to_solar, lts_a11, lts_b11, get_lunar_month_11,
      get_leap_month_offset, pyIntQ_glm, pyIntQ_glmo, pyIntQ_l2s] <;>
    decide

/-- C2 (amended): `lunar_to_solar` rejects an invalid leap-month request
with the sentinel only in lunar years whose month-11 span exceeds 365
days; in all other years the leap flag is ignored and a real date is
returned. -/
theorem c2_leap_flag_ignored (A : Astro) (d m y leap : ℤ)
    (hspan : lts_b11 A m y - lts_a11 A m y ≤ 365) :
    lunar_to_solar A d m y leap = lunar_to_solar A d m y 0 ∧
    lunar_to_solar A d m y leap ≠ [0, 0, 0] :=
  lunar_to_solar_ignores_leap A d m y leap hspan

/-- Witness for the amended C2 at the concrete input (1, 1, 2024, leap 1)
over `tetAstro`. -/
theorem c2_leap_flag_ignored_witness :
    (lts_b11 tetAstro 1 2024 - lts_a11 tetAstro 1 2024 ≤ 365) ∧
    (lunar_to_solar tetAstro 1 1 2024 1 = lunar_to_solar tetAstro 1 1 2024 0 ∧
      lunar_to_solar tetAstro 1 1 2024 1 ≠ [0, 0, 0]) :=
  ⟨by simp only [lts_a11, lts_b11, get_lunar_month_11, pyIntQ_glm]; decide,
   c2_leap_flag_ignored tetAstro 1 1 2024 1
     (by simp only [lts_a11, lts_b11, get_lunar_month_11, pyIntQ_glm]; decide)⟩

/-- C3: the reduced sun longitude is not in `[0, 2*pi)` and the sector
index is not in `[0, 11]`: at local midnight of 1 Jan 1900 (Julian day
2415021, time zone 7) `sun_longitude` is negative - Python `int` truncates
toward zero, so for dates before about J2000 the negative multiple of 2*pi
is not removed - and `get_sun_longitude` is negative as well, while the
conversion logic compares it with 9. -/
theorem c3_sun_longitude_negative :
    sun_longitude ((2415021 : ℝ) - 0.5 - 7 / 24) < 0 ∧
    get_sun_longitude 2415021 7 < 0 := by
  have hpi := Real.pi_pos
  have hT : sunT ((2415021 : ℝ) - 0.5 - 7 / 24) = -876595/876600 := by
    unfold sunT; norm_num
  have hL0a : (-35720.098 : ℝ) ≤ sunL0 (-876595/876600) := by
    unfold sunL0; norm_num
  have hL0b : sunL0 (-876595/876600 : ℝ) ≤ -35720.0977 := by
    unfold sunL0; norm_num
  have hs1a := Real.neg_one_le_sin (Real.pi / 180 * sunM (-876595/876600))
  have hs1b := Real.sin_le_one (Real.pi / 180 * sunM (-876595/876600))
  have hs2a := Real.neg_one_le_sin (Real.pi / 180 * 2 * sunM (-876595/876600))
  have hs2b := Real.sin_le_one (Real.pi / 180 * 2 * sunM (-876595/876600))
  have hs3a := Real.neg_one_le_sin (Real.pi / 180 * 3 * sunM (-876595/876600))
  have hs3b := Real.sin_le_one (Real.pi / 180 * 3 * sunM (-876595/876600))
  have hc1a : (1.9194 : ℝ) ≤ 1.914600 - 0.004817 * (-876595/876600) -
      0.000014 * ((-876595/876600) * (-876595/876600)) := by norm_num
  have hc1b : (1.914600 : ℝ) - 0.004817 * (-876595/876600) -
      0.000014 * ((-876595/876600) * (-876595/876600)) ≤ 1.91941 := by norm_num
  have hc2a : (0.0200 : ℝ) ≤ 0.019993 - 0.000101 * (-876595/876600) := by norm_num
  have hc2b : (0.019993 : ℝ) - 0.000101 * (-876595/876600) ≤ 0.02010 := by norm_num
  have hDLa : (-1.94 : ℝ) ≤ sunDL (-876595/876600) := by
    unfold sunDL
    nlinarith [mul_nonneg (by linarith : (0:ℝ) ≤ 1.914600 - 0.004817 * (-876595/876600) -
        0.000014 * ((-876595/876600) * (-876595/876600)))
        (by linarith : (0:ℝ) ≤ Real.sin (Real.pi / 180 * sunM (-876595/876600)) + 1),
      mul_nonneg (by linarith : (0:ℝ) ≤ 0.019993 - 0.000101 * (-876595/876600))
        (by linarith : (0:ℝ) ≤ Real.sin (Real.pi / 180 * 2 * sunM (-876595/876600)) + 1)]
  have hDLb : sunDL (-876595/876600 : ℝ) ≤ 1.94 := by
    unfold sunDL
    nlinarith [mul_nonneg (by linarith : (0:ℝ) ≤ 1.914600 - 0.004817 * (-876595/876600) -
        0.000014 * ((-876595/876600) * (-876595/876600)))
        (by linarith : (0:ℝ) ≤ 1 - Real.sin (Real.pi / 180 * sunM (-876595/876600))),
      mul_nonneg (by linarith : (0:ℝ) ≤ 0.019993 - 0.000101 * (-876595/876600))
        (by linarith : (0:ℝ) ≤ 1 - Real.sin (Real.pi / 180 * 2 * sunM (-876595/876600)))]
  have hda : (-35723 : ℝ) ≤ sunL0 (-876595/876600) + sunDL (-876595/876600) := by
    linarith
  have hdb : sunL0 (-876595/876600 : ℝ) + sunDL (-876595/876600) ≤ -35718.15 := by
    linarith
  have hq : (sunL0 (-876595/876600 : ℝ) + sunDL (-876595/876600)) * (Real.pi / 180) /
      (Real.pi * 2) = (sunL0 (-876595/876600) + sunDL (-876595/876600)) / 360 := by
    field_simp
    ring
  have htrunc : realTrunc ((sunL0 (-876595/876600 : ℝ) + sunDL (-876595/876600)) *
      (Real.pi / 180) / (Real.pi * 2)) = -99 := by
    rw [hq]
    unfold realTrunc
    rw [if_neg (by intro hcon; nlinarith)]
    rw [Int.ceil_eq_iff]
    constructor
    · push_cast; linarith
    · push_cast; linarith
  have hval : sun_longitude ((2415021 : ℝ) - 0.5 - 7 / 24) =
      (sunL0 (-876595/876600) + sunDL (-876595/876600) + 35640) * Real.pi / 180 := by
    simp only [sun_longitude]
    rw [hT, htrunc]
    push_cast
    ring
  constructor
  · rw [hval]
    nlinarith [mul_pos hpi (show (0:ℝ) <
      -(sunL0 (-876595/876600) + sunDL (-876595/876600) + 35640) by linarith)]
  · simp only [get_sun_longitude]
    have harg : ((2415021 : ℤ) : ℝ) - 0.5 - ((7 : ℤ) : ℝ) / 24 =
        (2415021 : ℝ) - 0.5 - 7 / 24 := by norm_num
    rw [harg, hval]
    have h6 : (sunL0 (-876595/876600 : ℝ) + sunDL (-876595/876600) + 35640) *
        Real.pi / 180 / Real.pi * 6 =
        (sunL0 (-876595/876600) + sunDL (-876595/876600) + 35640) / 30 := by
      field_simp
      ring
    rw [h6]
    unfold realTrunc
    rw [if_neg (by intro hcon; nlinarith)]
    have hle : ⌈(sunL0 (-876595/876600 : ℝ) + sunDL (-876595/876600) + 35640) / 30⌉ ≤
        -1 := by
      apply Int.ceil_le.mpr
      push_cast
      linarith
    omega

/-- Witness for C4 at 10 Feb 2024. -/
theorem jd_roundtrip_witness :
    (1800 ≤ (2024 : ℤ)) ∧ ((2024 : ℤ) ≤ 2100) ∧ IsValidDate 10 2 2024 ∧
    julian_day_to_date (julian_day_from_date 10 2 2024) = [10, 2, 2024] :=
  ⟨by norm_num, by norm_num, by decide,
   jd_roundtrip 10 2 2024 (by norm_num) (by norm_num) (by decide)⟩

/-- Witness for C5: 10 Feb 2024 comes before 29 Jan 2025. -/
theorem jd_strictMono_witness :
    (1800 ≤ (2024 : ℤ)) ∧ ((2024 : ℤ) ≤ 2100) ∧ IsValidDate 10 2 2024 ∧
    (1800 ≤ (2025 : ℤ)) ∧ ((2025 : ℤ) ≤ 2100) ∧ IsValidDate 29 1 2025 ∧
    ((2024 : ℤ) < 2025 ∨ ((2024 : ℤ) = 2025 ∧
      ((2 : ℤ) < 1 ∨ ((2 : ℤ) = 1 ∧ (10 : ℤ) < 29)))) ∧
    julian_day_from_date 10 2 2024 < julian_day_from_date 29 1 2025 :=
  ⟨by norm_num, by norm_num, by decide, by norm_num, by norm_num, by decide,
   Or.inl (by norm_num),
   jd_strictMono 10 2 2024 29 1 2025 (by norm_num) (by norm_num) (by decide)
     (by norm_num) (by norm_num) (by decide) (Or.inl (by norm_num))⟩

/-- C6: counterexample to the claimed output ranges of `solar_to_lunar`
(day in `[1, 30]`, month in `[1, 12]`): on 7 May 2054 (time zone 7) the
estimated month start falls one day after the date and the code returns
lunar day 0.  The oracle `astro2054` tabulates the source's own astronomy
outputs at the queried points. -/
theorem c6_lunar_day_zero :
    solar_to_lunar astro2054 7 5 2054 = [0, 4, 2054, 0] := by
  simp only [solar_to_lunar, get_lunar_month_11, pyIntQ_s2l, pyIntQ_glm,
    get_leap_month_offset, pyIntQ_glmo]
  decide

/-- C7: the leap-month scan terminates - it is a structural loop of at
most 13 iterations, its guard being `i < 14` - and `get_leap_month_offset`
returns an offset in `[1, 13]`, for every oracle and every month-11
start. -/
theorem c7_leap_offset_range : ∀ (A : Astro) (a11 : ℤ),
    1 ≤ get_leap_month_offset A a11 ∧ get_leap_month_offset A a11 ≤ 13 :=
  fun A a11 => leap_offset_bounds A a11

/-- Witness for C7 at the 2024 oracle and the month-11 start of lunar
2023. -/
theorem c7_witness :
    1 ≤ get_leap_month_offset tetAstro 2460292 ∧
    get_leap_month_offset tetAstro 2460292 ≤ 13 :=
  c7_leap_offset_range tetAstro 2460292

/-- C8: Tet 2024: `solar_to_lunar` maps 10 Feb 2024 to lunar 1/1/2024
with no leap flag, and `lunar_to_solar` maps lunar 1/1/2024 back to 10
Feb 2024, over the oracle `tetAstro` tabulating the source's astronomy at
the queried points. -/
theorem c8_tet_2024 :
    solar_to_lunar tetAstro 10 2 2024 = [1, 1, 2024, 0] ∧
    lunar_to_solar tetAstro 1 1 2024 0 = [10, 2, 2024] := by
  constructor
  · simp only [solar_to_lunar, get_lunar_month_11, pyIntQ_s2l, pyIntQ_glm]
    decide
  · simp only [lunar_to_solar, lts_a11, lts_b11, get_lunar_month_11,
      get_leap_month_offset, pyIntQ_glm, pyIntQ_glmo, pyIntQ_l2s]
    decide

/-- C9: `lunar_to_solar` returns the sentinel `[0, 0, 0]` exactly when
the lunar year spans more than 365 days between month-11 starts, the leap
flag is set and the requested month differs from the leap month
`(offset - 2) % 12`; and in years spanning at most 365 days the result
never depends on the leap flag. -/
theorem c9_sentinel_characterisation : ∀ (A : Astro) (d m y leap : ℤ),
    (lunar_to_solar A d m y leap = [0, 0, 0] ↔
      (365 < lts_b11 A m y - lts_a11 A m y ∧ leap ≠ 0 ∧
        m ≠ (get_leap_month_offset A (lts_a11 A m y) - 2) % 12)) ∧
    (lts_b11 A m y - lts_a11 A m y ≤ 365 →
      lunar_to_solar A d m y leap = lunar_to_solar A d m y 0) :=
  fun A d m y leap =>
    ⟨lunar_to_solar_sentinel_iff A d m y leap,
     fun h => (lunar_to_solar_ignores_leap A d m y leap h).1⟩

/-- Witness for C9 at the concrete input (1, 1, 2024, leap 1) over
`tetAstro`. -/
theorem c9_witness :
    (lunar_to_solar tetAstro 1 1 2024 1 = [0, 0, 0] ↔
      (365 < lts_b11 tetAstro 1 2024 - lts_a11 tetAstro 1 2024 ∧ (1 : ℤ) ≠ 0 ∧
        (1 : ℤ) ≠ (get_leap_month_offset tetAstro (lts_a11 tetAstro 1 2024) - 2) % 12)) ∧
    (lts_b11 tetAstro 1 2024 - lts_a11 tetAstro 1 2024 ≤ 365 →
      lunar_to_solar tetAstro 1 1 2024 1 = lunar_to_solar tetAstro 1 1 2024 0) :=
  c9_sentinel_characterisation tetAstro 1 1 2024 1

/-- C10: the sexagenary month name has period 5 in the year: for a lunar
month in `[1, 12]`, `zodiac_month` of year `y + 5` equals that of year
`y` - the stem index `(12 * y + m + 3) % 10` is invariant under adding 5
to `y`, and the branch depends only on the month. -/
theorem c10_zodiac_month_period5 (month year : ℤ) (h1 : 1 ≤ month)
    (h2 : month ≤ 12) :
    zodiac_month month year = zodiac_month month (year + 5) := by
  unfold zodiac_month
  have h : ((year + 5) * 12 + month + 3) % 10 = (year * 12 + month + 3) % 10 := by
    omega
  rw [h]

/-- Witness for C10 at month 3 of 2024. -/
theorem c10_witness :
    (1 ≤ (3 : ℤ)) ∧ ((3 : ℤ) ≤ 12) ∧
    zodiac_month 3 2024 = zodiac_month 3 (2024 + 5) :=
  ⟨by norm_num, by norm_num,
   c10_zodiac_month_period5 3 2024 (by norm_num) (by norm_num)⟩
